import Mathlib

/-!
Shallow embedding of the apiproxy credential-rotation service
(`api/index.js`, first variant, plus `setup.sql`).

The durable store (Supabase tables `demo_usage`, `key_usage`,
`rotation_state`) is modelled as in-memory lists keyed by their primary
keys; `upsert` replaces the row with the same key or inserts it.
Calendar days are the `YYYY-MM-DD` strings the code compares with `===`.
External cryptographic primitives (HMAC-SHA256, AES-256-CBC) are passed
in as function parameters, as the spec scopes them out by contract; the
code around them is embedded faithfully, including Node's
`crypto.timingSafeEqual` length behaviour and JavaScript falsiness of
`0` and `""` in `||` / `!x` positions.
-/

namespace ApiProxy

/-- Row of table `demo_usage` (one per device identity). -/
structure DemoUsage where
  device_id : String
  uses : Nat
  last_reset : String
  lifetime_uses : Nat
  deriving Repr, DecidableEq

/-- Row of table `key_usage` (one per upstream API key). -/
structure KeyUsage where
  key : String
  hits : Nat
  last_reset : String
  deriving Repr, DecidableEq

/-- The singleton row of table `rotation_state` (`id = 1`). -/
structure Rotation where
  last_used_index : Int
  last_reset : String
  deriving Repr, DecidableEq

/-- The durable store: the three tables the service touches. -/
structure DB where
  demo_usage : List DemoUsage
  key_usage : List KeyUsage
  rotation : Option Rotation
  deriving Repr, DecidableEq

/-- Responses the Express handlers produce, abstracted to status + payload. -/
inductive Resp where
  | ok (encryptedKey : String) (remainingDemoUses : Int) (hitsRemaining : Int)
  | okMsg (msg : String)
  | badRequest (msg : String)
  | unauthorized (msg : String)
  | forbidden (msg : String)
  | tooMany (msg : String)
  | internalError
  deriving Repr, DecidableEq

/-- HTTP status code of a response. -/
def statusOf : Resp → Nat
  | .ok _ _ _ => 200
  | .okMsg _ => 200
  | .badRequest _ => 400
  | .unauthorized _ => 401
  | .forbidden _ => 403
  | .tooMany _ => 429
  | .internalError => 500

/-- Request body of `POST /api/get-api-key`: `{ deviceId, hmac }`,
either field possibly absent. -/
structure Body where
  deviceId : Option String
  hmac : Option String
  deriving Repr, DecidableEq

/-- JavaScript truthiness of an optional string (`undefined`, `null` and
`""` are falsy). -/
def jsTruthyStr : Option String → Bool
  | none => false
  | some s => s ≠ ""

/-- JavaScript `x || -1` on the numeric field `last_used_index`
(`0` is falsy, so `0 || -1` evaluates to `-1`). -/
def jsOrNeg1 : Int → Int
  | v => if v = 0 then -1 else v

/-- `validateHmac` (index.js:28-34).  `mac deviceId secret` stands for
`crypto.createHmac("sha256", secret).update(deviceId).digest("base64")`.
`crypto.timingSafeEqual` THROWS (modelled as `.error ()`) when the two
buffers differ in byte length; with equal lengths it decides byte
equality, which for UTF-8 buffers is string equality. -/
def validateHmac (mac : String → String → String) (psk deviceId hmac : String) :
    Except Unit Bool :=
  let generatedHmac := mac deviceId psk
  if generatedHmac.utf8ByteSize = hmac.utf8ByteSize then
    .ok (generatedHmac = hmac)
  else
    .error ()

/-- The `hmacAuth` middleware (index.js:52-61).  Returns `some resp`
when it short-circuits the request; `none` means `next()` was called.
An exception out of `validateHmac` propagates to Express, which answers
500 (internal error). -/
def hmacAuth (mac : String → String → String) (psk : String) (body : Body) :
    Option Resp :=
  if ¬ jsTruthyStr body.deviceId ∨ ¬ jsTruthyStr body.hmac then
    some (.badRequest "Missing deviceId or hmac.")
  else
    match validateHmac mac psk (body.deviceId.getD "") (body.hmac.getD "") with
    | .error _ => some .internalError
    | .ok false => some (.unauthorized "Invalid HMAC.")
    | .ok true => none

/-- Read-path hit count (index.js:125):
`usage?.last_reset === today ? usage.hits : 0`. -/
def hitsToday (keyUsage : List KeyUsage) (key today : String) : Nat :=
  match keyUsage.find? (fun k => k.key = key) with
  | some usage => if usage.last_reset = today then usage.hits else 0
  | none => 0

/-- Commit-path hit count (index.js:145):
`keyUsage?.find((k) => k.key === selectedKey)?.hits || 0` — note: NO
day-stamp comparison here, unlike the read path. -/
def rawHits (keyUsage : List KeyUsage) (key : String) : Nat :=
  match keyUsage.find? (fun k => k.key = key) with
  | some usage => usage.hits
  | none => 0

/-- The round-robin `while` loop (index.js:121-132), by remaining
attempts (`apiKeys.length - attempts`).  Returns the selected key with
its pool index, paired with the number of probes performed. -/
def selectGo (pool : List String) (keyUsage : List KeyUsage) (today : String) :
    Nat → Nat → Option (String × Nat) × Nat
  | _, 0 => (none, 0)
  | index, fuel + 1 =>
    let keyIndex := index % pool.length
    let key := pool.getD keyIndex ""
    if hitsToday keyUsage key today < 90 then
      (some (key, keyIndex), 1)
    else
      let r := selectGo pool keyUsage today (index + 1) fuel
      (r.1, r.2 + 1)

/-- Start of probing (index.js:118):
`let index = (rotationState?.last_used_index || -1) + 1`.  The stored
cursor is always ≥ -1, so the sum is ≥ 0 and `toNat` is faithful. -/
def startIndex (last_used_index : Int) : Nat :=
  (jsOrNeg1 last_used_index + 1).toNat

/-- Key selection over a snapshot: start index from the cursor, at most
`|pool|` probes. -/
def select (pool : List String) (keyUsage : List KeyUsage) (today : String)
    (last_used_index : Int) : Option (String × Nat) × Nat :=
  selectGo pool keyUsage today (startIndex last_used_index) pool.length

/-- Upsert into `demo_usage` (primary key `device_id`). -/
def upsertDemo (rows : List DemoUsage) (row : DemoUsage) : List DemoUsage :=
  if rows.any (fun r => r.device_id = row.device_id) then
    rows.map (fun r => if r.device_id = row.device_id then row else r)
  else
    rows ++ [row]

/-- Upsert into `key_usage` (primary key `key`). -/
def upsertKey (rows : List KeyUsage) (row : KeyUsage) : List KeyUsage :=
  if rows.any (fun r => r.key = row.key) then
    rows.map (fun r => if r.key = row.key then row else r)
  else
    rows ++ [row]

/-- Which of the three commit-phase upserts the store fails
(`true` = that write returns an error). -/
structure WriteFails where
  rot : Bool
  key : Bool
  demo : Bool
  deriving Repr, DecidableEq

/-- `POST /api/get-api-key` (index.js:87-167), first variant.
`mac` and `sealFn` stand for the HMAC and `encryptKey` primitives; `wf`
injects store-write outcomes for the three commit upserts (a failed
upsert mutates nothing, is thrown, and the catch answers 500; earlier
upserts in the sequence are NOT rolled back). -/
def getApiKey (mac : String → String → String) (psk : String)
    (sealFn : String → String) (pool : List String) (today : String)
    (body : Body) (wf : WriteFails) (db : DB) : Resp × DB :=
  match hmacAuth mac psk body with
  | some resp => (resp, db)
  | none =>
    let deviceId := body.deviceId.getD ""
    let demoUser := db.demo_usage.find? (fun r => r.device_id = deviceId)
    -- index.js:99 `demoUser.last_reset === today && demoUser.uses >= 5`
    if (match demoUser with
        | some u => u.last_reset = today && u.uses ≥ 5
        | none => false) then
      (.forbidden "Daily demo limit reached.", db)
    -- index.js:102 `demoUser.lifetime_uses >= 50`
    else if (match demoUser with
        | some u => (u.lifetime_uses ≥ 50 : Bool)
        | none => false) then
      (.forbidden "Lifetime demo limit reached.", db)
    else
      match db.rotation with
      | none => (.internalError, db)  -- `.single()` errors, rethrown (index.js:117)
      | some rotationState =>
        match select pool db.key_usage today rotationState.last_used_index with
        | (none, _) => (.tooMany "All API keys exhausted.", db)
        | (some (selectedKey, newIndex), _) =>
          -- commit, in source order (index.js:136-155)
          if wf.rot then (.internalError, db)
          else
            let db1 : DB := { db with rotation := some ⟨(newIndex : Int), today⟩ }
            if wf.key then (.internalError, db1)
            else
              let newHits := rawHits db.key_usage selectedKey + 1
              let db2 : DB :=
                { db1 with key_usage := upsertKey db1.key_usage ⟨selectedKey, newHits, today⟩ }
              if wf.demo then (.internalError, db2)
              else
                let newUses := (match demoUser with | some u => u.uses | none => 0) + 1
                let newLifetime :=
                  (match demoUser with | some u => u.lifetime_uses | none => 0) + 1
                let db3 : DB :=
                  { db2 with demo_usage :=
                      upsertDemo db2.demo_usage ⟨deviceId, newUses, today, newLifetime⟩ }
                (.ok (sealFn selectedKey) (5 - (newUses : Int)) (90 - (newHits : Int)), db3)

/-- `GET /api/reset-metrics` (index.js:170-195).  The first statement,
`update({hits: 0, last_reset: today}).gte("id", 0)` on `key_usage`,
filters on an `id` column that `key_usage` does not have in either
`setup.sql` schema (its primary key is `key`), so PostgreSQL rejects
the statement (undefined column, 42703); the returned error is thrown
(index.js:180) and caught, answering 500 before the `demo_usage`
delete (index.js:181-185) or the cursor upsert (index.js:186-188)
can run.  The sweep therefore never mutates the ledger. -/
def resetMetrics (cronHeader : Option String) (cronSecret today : String)
    (db : DB) : Resp × DB :=
  if cronHeader ≠ some cronSecret then
    (.unauthorized "Unauthorized.", db)
  else
    (.internalError, db)

/-- The lifetime use count the service attributes to identity `d` in a
`demo_usage` table: the first matching row's `lifetime_uses`, or 0 for
an identity with no record (index.js:153 `demoUser?.lifetime_uses || 0`,
spec section 3). -/
def lifetimeIn (rows : List DemoUsage) (d : String) : Nat :=
  match rows.find? (fun r => r.device_id = d) with
  | some u => u.lifetime_uses
  | none => 0

/-- Lifetime use count of identity `d` in the store. -/
def lifetimeOf (db : DB) (d : String) : Nat :=
  lifetimeIn db.demo_usage d

/-- `encryptKey` (index.js:37-49) with the fresh IV and the AES-256-CBC
primitive made explicit: the output is `iv.toString("hex") + ":" +
encrypted.toString("hex")`. -/
def hexChar (n : Fin 16) : Char :=
  "0123456789abcdef".toList.getD (n : Nat) '0'

def hexByte (b : Fin 256) : List Char :=
  [hexChar ⟨(b : Nat) / 16, by omega⟩, hexChar ⟨(b : Nat) % 16, by omega⟩]

def bytesToHex (bytes : List (Fin 256)) : String :=
  ⟨bytes.flatMap hexByte⟩

def encryptKey (cipher : List (Fin 256) → String → List (Fin 256))
    (iv : List (Fin 256)) (key : String) : String :=
  bytesToHex iv ++ ":" ++ bytesToHex (cipher iv key)

end ApiProxy

/-! ## Claim theorems -/

namespace ApiProxy

/-- C1: the claim says no commit pushes an identity's current-day daily
use count above the ceiling of 5.  The code's ceiling check
(index.js:99) is day-aware, but the commit (index.js:151) increments the
stored `uses` without resetting a stale day-stamp: a device that ended
2025-01-01 at `uses = 5` and requests on 2025-01-02 (before any sweep)
is not rejected, and the commit stores `uses = 6` stamped with the
current day — a current-day count of 6 > 5. -/
theorem c1_new_day_commit_exceeds_daily_ceiling :
    (getApiKey (fun _ _ => "M") "psk" (fun s => s) ["A"] "2025-01-02"
        ⟨some "d", some "M"⟩ ⟨false, false, false⟩
        ⟨[⟨"d", 5, "2025-01-01", 10⟩], [], some ⟨-1, "2025-01-02"⟩⟩).2.demo_usage
      = [⟨"d", 6, "2025-01-02", 11⟩] := by decide

/-- C2: the claim says probing starts at `(cursor.last_index + 1) mod
|pool|`, so with `last_index = 0` and pool `["A","B","C"]` it should
start at index 1 and pick `"B"`.  Because index.js:118 uses
`last_used_index || -1` and JavaScript treats `0` as falsy, a cursor at
index 0 restarts probing at index 0 and re-selects `"A"` — and keeps
doing so on subsequent requests (second conjunct, after `"A"` has
accrued a hit), so K consecutive selections do not visit K distinct
indices. -/
theorem c2_cursor_zero_restarts_at_index_zero :
    select ["A", "B", "C"] [] "2025-01-02" 0 = (some ("A", 0), 1)
      ∧ select ["A", "B", "C"] [⟨"A", 1, "2025-01-02"⟩] "2025-01-02" 0
          = (some ("A", 0), 1) := by decide

/-- C3: the claim says the commit write path treats a prior-day hit
count as 0, so the first dispense of a secret on a new day stores
`hits = 1`.  The commit (index.js:145) adds 1 to the raw stored `hits`
with no day-stamp comparison: with `{"A", hits 5, 2025-01-01}` on file,
the first dispense of `"A"` on 2025-01-02 stores `hits = 6` stamped
with the new day. -/
theorem c3_new_day_commit_carries_stale_hits :
    (getApiKey (fun _ _ => "M") "psk" (fun s => s) ["A"] "2025-01-02"
        ⟨some "d", some "M"⟩ ⟨false, false, false⟩
        ⟨[], [⟨"A", 5, "2025-01-01"⟩], some ⟨-1, "2025-01-02"⟩⟩).2.key_usage
      = [⟨"A", 6, "2025-01-02"⟩] := by decide

/-- C5: the claim says the three commit mutations take effect all
together or not at all.  The commit (index.js:136-155) is three
sequential upserts with no transaction or rollback: if the `key_usage`
write fails after the `rotation_state` write succeeded, the request
ends in internal error (FAILED_STORE) yet the cursor advance (-1 → 0)
is already durably committed, alone — refuting all-or-nothing
atomicity. -/
theorem c5_store_failure_leaves_partial_commit :
    getApiKey (fun _ _ => "M") "psk" (fun s => s) ["A"] "2025-01-02"
        ⟨some "d", some "M"⟩ ⟨false, true, false⟩
        ⟨[], [], some ⟨-1, "2025-01-02"⟩⟩
      = (.internalError, ⟨[], [], some ⟨0, "2025-01-02"⟩⟩) := by decide

/-- C6: the claim says the authenticator's verify operation returns a
boolean and never throws, returning `false` on any mismatch.
`validateHmac` (index.js:28-34) feeds both strings to
`crypto.timingSafeEqual`, which throws when the buffers differ in byte
length: the genuine HMAC-SHA256 base64 digest is 44 bytes, so any
proof of a different length (here the 1-byte `"x"`) makes the
authenticator throw instead of returning `false`. -/
theorem c6_validateHmac_raises_on_length_mismatch :
    validateHmac (fun _ _ => String.mk (List.replicate 44 'A')) "psk" "d" "x"
      = .error () := by rfl

end ApiProxy

namespace ApiProxy

/-- The reset sweep never changes the store: the unauthorized branch
returns it untouched, and the authorized branch fails at its first
statement (undefined column `key_usage.id`) before any mutation. -/
theorem resetMetrics_state_id (hdr : Option String) (cs today : String) (db : DB) :
    (resetMetrics hdr cs today db).2 = db := by
  unfold resetMetrics
  split <;> rfl

/-- C7: the daily reset sweep (`GET /api/reset-metrics`) is idempotent:
run twice on the same day it yields exactly the ledger state of one
run.  As shipped the sweep never mutates the ledger at all — its
`key_usage` update always fails on the missing `id` column and the
handler answers 500 before the delete and cursor upsert — so both a
single run and a double run return the incoming state. -/
theorem c7_reset_sweep_idempotent (hdr : Option String) (cs today : String) (db : DB) :
    (resetMetrics hdr cs today (resetMetrics hdr cs today db).2).2
      = (resetMetrics hdr cs today db).2 := by
  simp [resetMetrics_state_id]

/-- Replacing every row keyed like `row` leaves the first such row
findable as `row` itself, provided one exists. -/
theorem find_replace_self (rows : List DemoUsage) (row : DemoUsage)
    (h : rows.any (fun r => r.device_id = row.device_id) = true) :
    (rows.map (fun r => if r.device_id = row.device_id then row else r)).find?
        (fun r => r.device_id = row.device_id) = some row := by
  induction rows with
  | nil => simp at h
  | cons r t ih =>
    by_cases hr : r.device_id = row.device_id
    · simp [hr]
    · simp only [List.any_cons, Bool.or_eq_true, decide_eq_true_eq] at h
      rcases h with h | h
      · exact absurd h hr
      · simp [hr, ih h]

/-- Replacing rows keyed like `row` does not affect lookups of a
different key. -/
theorem find_replace_other (rows : List DemoUsage) (row : DemoUsage) (d : String)
    (hne : row.device_id ≠ d) :
    (rows.map (fun r => if r.device_id = row.device_id then row else r)).find?
        (fun r => r.device_id = d) = rows.find? (fun r => r.device_id = d) := by
  induction rows with
  | nil => rfl
  | cons r t ih =>
    simp only [List.map_cons]
    by_cases hr : r.device_id = row.device_id
    · rw [if_pos hr]
      have h2 : ¬ (r.device_id = d) := by rw [hr]; exact hne
      rw [List.find?_cons_of_neg _ (by simpa using hne),
        List.find?_cons_of_neg _ (by simpa using h2)]
      exact ih
    · rw [if_neg hr]
      by_cases hrd : r.device_id = d
      · rw [List.find?_cons_of_pos _ (by simpa using hrd),
          List.find?_cons_of_pos _ (by simpa using hrd)]
      · rw [List.find?_cons_of_neg _ (by simpa using hrd),
          List.find?_cons_of_neg _ (by simpa using hrd)]
        exact ih

/-- After upserting `row`, the lifetime count of `row`'s identity is
exactly `row.lifetime_uses`. -/
theorem lifetimeIn_upsertDemo_self (rows : List DemoUsage) (row : DemoUsage) :
    lifetimeIn (upsertDemo rows row) row.device_id = row.lifetime_uses := by
  unfold lifetimeIn upsertDemo
  by_cases h : rows.any (fun r => r.device_id = row.device_id) = true
  · rw [if_pos h, find_replace_self rows row h]
  · rw [if_neg h]
    have hnone : rows.find? (fun r => r.device_id = row.device_id) = none := by
      rw [List.find?_eq_none]
      intro x hx hpx
      exact h (List.any_eq_true.mpr ⟨x, hx, hpx⟩)
    rw [List.find?_append, hnone]
    simp

/-- Upserting `row` does not affect the lifetime count of any other
identity. -/
theorem lifetimeIn_upsertDemo_other (rows : List DemoUsage) (row : DemoUsage)
    (d : String) (hne : row.device_id ≠ d) :
    lifetimeIn (upsertDemo rows row) d = lifetimeIn rows d := by
  unfold lifetimeIn upsertDemo
  by_cases h : rows.any (fun r => r.device_id = row.device_id) = true
  · rw [if_pos h, find_replace_other rows row d hne]
  · rw [if_neg h, List.find?_append]
    have hrow : List.find? (fun r => r.device_id = d) [row] = none := by
      simp [hne]
    rw [hrow]
    cases rows.find? (fun r => r.device_id = d) <;> rfl

/-- Upserting a row whose `lifetime_uses` dominates the stored value of
its own identity never decreases any identity's lifetime count. -/
theorem lifetimeIn_upsertDemo_le (rows : List DemoUsage) (row : DemoUsage)
    (hrow : lifetimeIn rows row.device_id ≤ row.lifetime_uses) (d : String) :
    lifetimeIn rows d ≤ lifetimeIn (upsertDemo rows row) d := by
  by_cases hd : row.device_id = d
  · subst hd
    rw [lifetimeIn_upsertDemo_self]
    exact hrow
  · rw [lifetimeIn_upsertDemo_other rows row d hd]

/-- An issuance request never decreases any identity's lifetime use
count: every rejection and failure branch returns the store unchanged
on `demo_usage`, and a committed request increments the requesting
identity's count by one while leaving every other identity's intact. -/
theorem getApiKey_lifetime_mono (mac : String → String → String) (psk : String)
    (sealFn : String → String) (pool : List String) (today : String)
    (body : Body) (wf : WriteFails) (db : DB) (d : String) :
    lifetimeOf db d ≤ lifetimeOf (getApiKey mac psk sealFn pool today body wf db).2 d := by
  unfold getApiKey
  cases hmacAuth mac psk body with
  | some resp => exact le_rfl
  | none =>
    dsimp only
    split
    · exact le_rfl
    split
    · exact le_rfl
    split
    · exact le_rfl
    split
    · exact le_rfl
    split
    · exact le_rfl
    split
    · exact le_rfl
    split
    · exact le_rfl
    exact lifetimeIn_upsertDemo_le db.demo_usage _ (by
      dsimp only
      unfold lifetimeIn
      cases db.demo_usage.find? (fun r => r.device_id = body.deviceId.getD "") with
      | none => exact Nat.zero_le _
      | some u => exact Nat.le_succ _) d

/-- C4: `lifetime_uses` is monotonically non-decreasing across the
system's operations, and in particular the daily reset sweep never
zeroes or discards it: the sweep returns the ledger unchanged (its
first store statement always fails on the missing `key_usage.id`
column, before the `demo_usage` delete can run), and an issuance
request never decreases any identity's lifetime count. -/
theorem c4_lifetime_uses_never_discarded :
    (∀ (hdr : Option String) (cs today : String) (db : DB),
        (resetMetrics hdr cs today db).2 = db)
      ∧ (∀ (mac : String → String → String) (psk : String)
            (sealFn : String → String) (pool : List String) (today : String)
            (body : Body) (wf : WriteFails) (db : DB) (d : String),
          lifetimeOf db d
            ≤ lifetimeOf (getApiKey mac psk sealFn pool today body wf db).2 d) :=
  ⟨resetMetrics_state_id, getApiKey_lifetime_mono⟩

/-- When every pool key is at or above the per-key daily ceiling, the
selection loop rejects every probe and returns no key, consuming
exactly its fuel in probes. -/
theorem selectGo_none_of_all_ceiling (pool : List String) (ku : List KeyUsage)
    (today : String) (hpool : pool ≠ [])
    (hceil : ∀ k ∈ pool, 90 ≤ hitsToday ku k today) :
    ∀ fuel index, selectGo pool ku today index fuel = (none, fuel) := by
  intro fuel
  induction fuel with
  | zero => intro index; rfl
  | succ n ih =>
    intro index
    have hlen : 0 < pool.length := List.length_pos.mpr hpool
    have hm : index % pool.length < pool.length := Nat.mod_lt _ hlen
    have hmem : pool.getD (index % pool.length) "" ∈ pool := by
      rw [List.getD_eq_getElem pool "" hm]; exact List.getElem_mem hm
    have h90 := hceil _ hmem
    simp only [selectGo]
    rw [if_neg (by omega), ih (index + 1)]

/-- `select` under an all-at-ceiling ledger: no key, `|pool|` probes. -/
theorem select_none_of_all_ceiling (pool : List String) (ku : List KeyUsage)
    (today : String) (last : Int)
    (hceil : ∀ k ∈ pool, 90 ≤ hitsToday ku k today) :
    select pool ku today last = (none, pool.length) := by
  rcases eq_or_ne pool [] with h | h
  · subst h; rfl
  · exact selectGo_none_of_all_ceiling pool ku today h hceil pool.length _

/-- C8: if every secret's current-day hit count is at or above the
per-secret ceiling (90), an authenticated request that passes the
identity checks probes exactly `|pool|` indices, ends in the 429
"All API keys exhausted." response — an error kind distinct from the
401 authentication and 403 identity-quota rejections — and leaves the
ledger untouched. -/
theorem c8_pool_exhaustion_rejected_without_mutation
    (mac : String → String → String) (psk : String) (sealFn : String → String)
    (pool : List String) (today : String) (body : Body) (wf : WriteFails)
    (db : DB) (rot : Rotation)
    (hauth : hmacAuth mac psk body = none)
    (hdaily : (match db.demo_usage.find? (fun r => r.device_id = body.deviceId.getD "") with
        | some u => u.last_reset = today && u.uses ≥ 5
        | none => false) = false)
    (hlife : (match db.demo_usage.find? (fun r => r.device_id = body.deviceId.getD "") with
        | some u => (u.lifetime_uses ≥ 50 : Bool)
        | none => false) = false)
    (hrot : db.rotation = some rot)
    (hceil : ∀ k ∈ pool, 90 ≤ hitsToday db.key_usage k today) :
    getApiKey mac psk sealFn pool today body wf db
        = (.tooMany "All API keys exhausted.", db)
      ∧ (select pool db.key_usage today rot.last_used_index).2 = pool.length
      ∧ statusOf (Resp.tooMany "All API keys exhausted.") = 429
      ∧ (∀ m, Resp.tooMany "All API keys exhausted." ≠ Resp.unauthorized m)
      ∧ (∀ m, Resp.tooMany "All API keys exhausted." ≠ Resp.forbidden m) := by
  have hsel := select_none_of_all_ceiling pool db.key_usage today
    rot.last_used_index hceil
  refine ⟨?_, by rw [hsel], rfl, fun m h => Resp.noConfusion h,
    fun m h => Resp.noConfusion h⟩
  unfold getApiKey
  rw [hauth]
  simp [hdaily, hlife, hrot, hsel]

/-- Closed instance of C8: a two-key pool with both keys at the
ceiling today yields the 429 rejection with the store unchanged. -/
theorem c8_pool_exhaustion_witness :
    getApiKey (fun _ _ => "M") "p" (fun s => s) ["A", "B"] "2025-01-02"
        ⟨some "d", some "M"⟩ ⟨false, false, false⟩
        ⟨[], [⟨"A", 90, "2025-01-02"⟩, ⟨"B", 95, "2025-01-02"⟩], some ⟨-1, "2025-01-02"⟩⟩
      = (.tooMany "All API keys exhausted.",
          ⟨[], [⟨"A", 90, "2025-01-02"⟩, ⟨"B", 95, "2025-01-02"⟩], some ⟨-1, "2025-01-02"⟩⟩) :=
  (c8_pool_exhaustion_rejected_without_mutation (fun _ _ => "M") "p" (fun s => s)
    ["A", "B"] "2025-01-02" ⟨some "d", some "M"⟩ ⟨false, false, false⟩
    ⟨[], [⟨"A", 90, "2025-01-02"⟩, ⟨"B", 95, "2025-01-02"⟩], some ⟨-1, "2025-01-02"⟩⟩
    ⟨-1, "2025-01-02"⟩ rfl rfl rfl rfl (by decide)).1

end ApiProxy

namespace ApiProxy

/-- The 16 hex digits are pairwise distinct. -/
theorem hexChar_inj : ∀ x y : Fin 16, hexChar x = hexChar y → x = y := by decide

/-- Two-digit hex encoding of a byte is injective. -/
theorem hexByte_inj : ∀ a b : Fin 256, hexByte a = hexByte b → a = b := by
  intro a b h
  simp only [hexByte, List.cons.injEq, and_true] at h
  obtain ⟨h1, h2⟩ := h
  have v1 : (a : Nat) / 16 = (b : Nat) / 16 := congrArg Fin.val (hexChar_inj _ _ h1)
  have v2 : (a : Nat) % 16 = (b : Nat) % 16 := congrArg Fin.val (hexChar_inj _ _ h2)
  exact Fin.ext (by omega)

/-- Hex encoding doubles the length. -/
theorem length_flatMap_hexByte (l : List (Fin 256)) :
    (l.flatMap hexByte).length = 2 * l.length := by
  induction l with
  | nil => rfl
  | cons a t ih => simp [List.flatMap_cons, hexByte, ih]; omega

/-- Hex encoding is injective on byte lists of equal length. -/
theorem flatMap_hexByte_inj : ∀ l1 l2 : List (Fin 256),
    l1.flatMap hexByte = l2.flatMap hexByte → l1.length = l2.length → l1 = l2 := by
  intro l1
  induction l1 with
  | nil =>
    intro l2 h hl
    cases l2 with
    | nil => rfl
    | cons b t2 => simp at hl
  | cons a t ih =>
    intro l2 h hl
    cases l2 with
    | nil => simp at hl
    | cons b t2 =>
      simp only [List.flatMap_cons] at h
      obtain ⟨hab, ht⟩ := List.append_inj h rfl
      have hb := hexByte_inj _ _ hab
      subst hb
      rw [ih t2 ht (by simpa using hl)]

/-- C9: `encryptKey` prefixes its output with the hex of the IV, so two
invocations on the same secret with distinct fresh 16-byte IVs produce
different `iv:ciphertext` outputs, whatever the cipher computes. -/
theorem c9_distinct_iv_distinct_outputs
    (cipher : List (Fin 256) → String → List (Fin 256))
    (iv1 iv2 : List (Fin 256)) (key : String)
    (h1 : iv1.length = 16) (h2 : iv2.length = 16) (hne : iv1 ≠ iv2) :
    encryptKey cipher iv1 key ≠ encryptKey cipher iv2 key := by
  intro he
  apply hne
  have hd := congrArg String.data he
  simp only [encryptKey, String.data_append, bytesToHex] at hd
  rw [List.append_assoc, List.append_assoc] at hd
  have hlen : (iv1.flatMap hexByte).length = (iv2.flatMap hexByte).length := by
    rw [length_flatMap_hexByte, length_flatMap_hexByte, h1, h2]
  exact flatMap_hexByte_inj iv1 iv2 (List.append_inj hd hlen).1 (by rw [h1, h2])

/-- Closed instance of C9 at two concrete distinct 16-byte IVs. -/
theorem c9_distinct_iv_witness :
    encryptKey (fun _ _ => []) (List.replicate 16 (0 : Fin 256)) "k"
      ≠ encryptKey (fun _ _ => []) ((1 : Fin 256) :: List.replicate 15 0) "k" :=
  c9_distinct_iv_distinct_outputs (fun _ _ => []) _ _ "k"
    (by decide) (by decide) (by decide)

/-- C10: a request body lacking `deviceId` or `hmac` is rejected by the
middleware with the 400 "Missing deviceId or hmac." response before any
HMAC computation (the outcome does not depend on the MAC primitive at
all) and before any store access (the store is returned unchanged); the
400 status is distinct from the 401 invalid-proof rejection. -/
theorem c10_missing_field_rejected_before_hmac
    (mac mac2 : String → String → String) (psk : String) (sealFn : String → String)
    (pool : List String) (today : String) (body : Body) (wf : WriteFails) (db : DB)
    (h : body.deviceId = none ∨ body.hmac = none) :
    getApiKey mac psk sealFn pool today body wf db
        = (.badRequest "Missing deviceId or hmac.", db)
      ∧ getApiKey mac psk sealFn pool today body wf db
        = getApiKey mac2 psk sealFn pool today body wf db
      ∧ statusOf (Resp.badRequest "Missing deviceId or hmac.")
          ≠ statusOf (Resp.unauthorized "Invalid HMAC.") := by
  have hb : ∀ m : String → String → String,
      hmacAuth m psk body = some (.badRequest "Missing deviceId or hmac.") := by
    intro m
    rcases h with h | h <;> simp [hmacAuth, h, jsTruthyStr]
  refine ⟨?_, ?_, by decide⟩
  · unfold getApiKey; rw [hb mac]
  · unfold getApiKey; rw [hb mac, hb mac2]

/-- Closed instance of C10: a body with no `deviceId` gets the 400
missing-field rejection and an unchanged store. -/
theorem c10_missing_field_witness :
    getApiKey (fun _ _ => "M") "p" (fun s => s) ["A"] "2025-01-02"
        ⟨none, some "M"⟩ ⟨false, false, false⟩ ⟨[], [], some ⟨-1, "2025-01-02"⟩⟩
      = (.badRequest "Missing deviceId or hmac.", ⟨[], [], some ⟨-1, "2025-01-02"⟩⟩) :=
  (c10_missing_field_rejected_before_hmac (fun _ _ => "M") (fun _ _ => "N") "p"
    (fun s => s) ["A"] "2025-01-02" ⟨none, some "M"⟩ ⟨false, false, false⟩
    ⟨[], [], some ⟨-1, "2025-01-02"⟩⟩ (Or.inl rfl)).1

end ApiProxy
